import Mathlib

/-!
Shallow embedding of the Skinport client library (src/Skinport.ts).

The embedding covers: the credential header construction performed in the
constructor, the configured HTTP request gateway, the marketplace operations
(getItems, getSalesHistory, getOutOfStock, getTransactions) as pure request
builders plus body pass-through, and the WebSocket lifecycle consisting of
initSocket, the transport signals connect and connect_error, and the guarded
socket getter. Client behaviour over time is modelled as a fold of events over
an explicit client state.
-/

/-- UTF-8 byte encoding of a single character, as used by Buffer.from on a
JavaScript string. -/
def utf8Bytes (c : Char) : List Nat :=
  let n := c.toNat
  if n < 128 then [n]
  else if n < 2048 then [192 + n / 64, 128 + n % 64]
  else if n < 65536 then [224 + n / 4096, 128 + n / 64 % 64, 128 + n % 64]
  else [240 + n / 262144, 128 + n / 4096 % 64, 128 + n / 64 % 64, 128 + n % 64]

/-- UTF-8 bytes of a string. -/
def strBytes (s : String) : List Nat := s.data.flatMap utf8Bytes

/-- The standard Base64 alphabet. -/
def b64Alphabet : List Char :=
  "ABCDEFGHIJKLMNOPQRSTUVWXYZabcdefghijklmnopqrstuvwxyz0123456789+/".data

/-- Character of the Base64 alphabet at a six-bit index. -/
def b64Char (n : Nat) : Char := b64Alphabet.getD n '='

/-- Standard Base64 encoding of a byte list, as produced by
Buffer.toString applied with the base64 encoding. -/
def base64Encode : List Nat → String
  | [] => ""
  | [a] => String.mk [b64Char (a / 4), b64Char (a % 4 * 16), '=', '=']
  | [a, b] =>
    String.mk [b64Char (a / 4), b64Char (a % 4 * 16 + b / 16), b64Char (b % 16 * 4), '=']
  | a :: b :: c :: rest =>
    String.mk [b64Char (a / 4), b64Char (a % 4 * 16 + b / 16),
      b64Char (b % 16 * 4 + c / 64), b64Char (c % 64)] ++ base64Encode rest

/-- The Authorization header value built in the constructor:
the JavaScript conditional (clientId and clientSecret) is truthiness, so the
Basic credential is produced exactly when both are supplied and non-empty,
and the empty string otherwise. -/
def buildAuthHeader : Option String → Option String → String
  | some cid, some cs =>
    if cid = "" ∨ cs = "" then ""
    else "Basic " ++ base64Encode (strBytes (cid ++ ":" ++ cs))
  | _, _ => ""

/-- The axios instance configuration created in the constructor: a fixed base
URL and a fixed header object. -/
structure GatewayConfig where
  baseURL : String
  headers : List (String × String)
  deriving DecidableEq

/-- The axios.create call of the constructor. -/
def mkGateway (clientId clientSecret : Option String) : GatewayConfig :=
  { baseURL := "https://api.skinport.com/v1",
    headers := [("Authorization", buildAuthHeader clientId clientSecret),
                ("Accept-Encoding", "br"),
                ("Content-Type", "application/json")] }

/-- Lookup of a header value by name in a header object. -/
def headerValue (name : String) (hs : List (String × String)) : Option String :=
  (hs.find? (fun p => p.fst == name)).map Prod.snd

/-- A query parameter value: JavaScript number, string or boolean. -/
inductive ParamValue where
  | nat : Nat → ParamValue
  | str : String → ParamValue
  | bool : Bool → ParamValue
  deriving DecidableEq

/-- One HTTP request as handed to the transport by the gateway. -/
structure Request where
  method : String
  url : String
  params : List (String × ParamValue)
  headers : List (String × String)
  deriving DecidableEq

/-- A decoded HTTP response as axios delivers it: a status and a data field. -/
structure HttpResponse (T : Type) where
  status : Nat
  data : T

/-- The single gateway primitive: api.get of a path with query params, under
the headers frozen at construction; the operation result is the data field of
the response, unchanged. The request list is the list of network calls the
invocation performs. -/
def gatewayGet {T : Type} (g : GatewayConfig) (path : String)
    (params : List (String × ParamValue)) (resp : HttpResponse T) :
    List Request × T :=
  ([{ method := "GET", url := g.baseURL ++ path, params := params,
      headers := g.headers }], resp.data)

/-- A present option field becomes one query parameter; an absent one is
dropped from the serialized query, as axios does for undefined values. -/
def queryEntry {α : Type} (name : String) (f : α → ParamValue) :
    Option α → List (String × ParamValue)
  | none => []
  | some v => [(name, f v)]

/-- Options of getItems, all fields optional. -/
structure ItemsOptions where
  app_id : Option Nat
  currency : Option String
  tradable : Option Bool
  deriving DecidableEq

/-- Query parameters of getItems: the options record forwarded verbatim. -/
def itemsParams (o : ItemsOptions) : List (String × ParamValue) :=
  queryEntry "app_id" ParamValue.nat o.app_id ++
  queryEntry "currency" ParamValue.str o.currency ++
  queryEntry "tradable" ParamValue.bool o.tradable

/-- Options of getSalesHistory, all fields optional. -/
structure SalesHistoryOptions where
  market_hash_name : Option String
  app_id : Option Nat
  currency : Option String
  deriving DecidableEq

/-- Query parameters of getSalesHistory: the options record forwarded
verbatim. -/
def salesHistoryParams (o : SalesHistoryOptions) : List (String × ParamValue) :=
  queryEntry "market_hash_name" ParamValue.str o.market_hash_name ++
  queryEntry "app_id" ParamValue.nat o.app_id ++
  queryEntry "currency" ParamValue.str o.currency

/-- Options of getOutOfStock, both fields required by the declared type. -/
structure OutOfStockOptions where
  app_id : Nat
  currency : String
  deriving DecidableEq

/-- Options of getTransactions, all fields required by the declared type. -/
structure TransactionsOptions where
  page : Nat
  limit : Nat
  order : String
  deriving DecidableEq

/-- Body of getItems: one api.get of /items with the options as params,
returning the data field. -/
def getItemsRun {T : Type} (g : GatewayConfig) (o : ItemsOptions)
    (resp : HttpResponse T) : List Request × T :=
  gatewayGet g "/items" (itemsParams o) resp

/-- Body of getSalesHistory: one api.get of /sales/history. -/
def getSalesHistoryRun {T : Type} (g : GatewayConfig) (o : SalesHistoryOptions)
    (resp : HttpResponse T) : List Request × T :=
  gatewayGet g "/sales/history" (salesHistoryParams o) resp

/-- Body of getOutOfStock: one api.get of /sales/out-of-stock. -/
def getOutOfStockRun {T : Type} (g : GatewayConfig) (o : OutOfStockOptions)
    (resp : HttpResponse T) : List Request × T :=
  gatewayGet g "/sales/out-of-stock"
    [("app_id", ParamValue.nat o.app_id), ("currency", ParamValue.str o.currency)] resp

/-- Body of getTransactions: one api.get of /account/transactions. -/
def getTransactionsRun {T : Type} (g : GatewayConfig) (o : TransactionsOptions)
    (resp : HttpResponse T) : List Request × T :=
  gatewayGet g "/account/transactions"
    [("page", ParamValue.nat o.page), ("limit", ParamValue.nat o.limit),
     ("order", ParamValue.str o.order)] resp

/-- Connection phase of the socket object created by io. -/
inductive Phase where
  | connecting
  | connected
  | failed
  deriving DecidableEq

/-- The socket object: creationId models the object identity of the io call
that created it, phase its transport connection state. -/
structure SocketObj where
  creationId : Nat
  phase : Phase
  deriving DecidableEq

/-- The mutable state of one Skinport client instance. The gateway is the api
field, sock the optional underscore-socket field. promPending, okSettled and
errSettled track the promise returned by the first effective initSocket call:
a JavaScript promise settles at most once, so the handlers installed on
connect and connect_error only settle it while it is still pending.
connectionsCreated counts io calls, initInvoked records whether initSocket was
ever called. -/
structure ClientState where
  gateway : GatewayConfig
  sock : Option SocketObj
  promPending : Bool
  okSettled : Nat
  errSettled : Nat
  connectionsCreated : Nat
  initInvoked : Bool
  deriving DecidableEq

/-- The constructor: gateway built once, no socket, no promise, no io call. -/
def mkClient (clientId clientSecret : Option String) : ClientState :=
  { gateway := mkGateway clientId clientSecret,
    sock := none,
    promPending := false,
    okSettled := 0,
    errSettled := 0,
    connectionsCreated := 0,
    initInvoked := false }

/-- Result of one initSocket call: the debounce branch returns an immediately
resolved promise, the other branch creates the socket and returns a pending
promise. -/
inductive InitResult where
  | alreadyInitialized
  | pendingConnection
  deriving DecidableEq

/-- The initSocket method. If the socket field is set it returns at once
without touching the state; otherwise it calls io exactly once, assigns the
socket field and leaves a pending promise. -/
def initSocketOp (s : ClientState) : ClientState × InitResult :=
  match s.sock with
  | some _ => ({ s with initInvoked := true }, InitResult.alreadyInitialized)
  | none =>
    ({ s with
        sock := some { creationId := s.connectionsCreated, phase := Phase.connecting },
        promPending := true,
        connectionsCreated := s.connectionsCreated + 1,
        initInvoked := true },
      InitResult.pendingConnection)

/-- The connect handler: logs, marks the socket connected, and resolves the
promise, which only settles it if it is still pending. -/
def onConnect (s : ClientState) : ClientState :=
  match s.sock with
  | none => s
  | some o =>
    { s with
        sock := some { o with phase := Phase.connected },
        promPending := false,
        okSettled := if s.promPending then s.okSettled + 1 else s.okSettled }

/-- The connect_error handler: logs, marks the attempt failed, and rejects the
promise, which only settles it if it is still pending. The socket field is
not cleared. -/
def onConnectError (s : ClientState) : ClientState :=
  match s.sock with
  | none => s
  | some o =>
    { s with
        sock := some { o with phase := Phase.failed },
        promPending := false,
        errSettled := if s.promPending then s.errSettled + 1 else s.errSettled }

/-- The guarded socket getter: throws a configuration error while the socket
field is unset, returns the socket object otherwise, synchronously. -/
def getSocket (s : ClientState) : Except String SocketObj :=
  match s.sock with
  | none => Except.error "Socket not initialized. Call `initSocket()` first."
  | some o => Except.ok o

/-- One observable event in the life of a client: an initSocket call, a
transport signal, or a marketplace HTTP call (which reads the gateway and
never touches the socket state). -/
inductive Event where
  | initCall
  | connectSignal
  | connectErrorSignal
  | marketplaceCall
  deriving DecidableEq

/-- The effect of one event on the client state. -/
def step (s : ClientState) : Event → ClientState
  | Event.initCall => (initSocketOp s).fst
  | Event.connectSignal => onConnect s
  | Event.connectErrorSignal => onConnectError s
  | Event.marketplaceCall => s

/-- A client run: a sequence of events folded over a state. -/
def run (s : ClientState) (es : List Event) : ClientState :=
  es.foldl step s

/-! Helper lemmas about runs. -/

theorem run_nil (s : ClientState) : run s [] = s := rfl

theorem run_cons (s : ClientState) (e : Event) (es : List Event) :
    run s (e :: es) = run (step s e) es := rfl

theorem run_append (s : ClientState) (a b : List Event) :
    run s (a ++ b) = run (run s a) b := by
  simp [run, List.foldl_append]

theorem step_gateway (s : ClientState) (e : Event) : (step s e).gateway = s.gateway := by
  cases e <;> cases hs : s.sock <;>
    simp_all [step, initSocketOp, onConnect, onConnectError]

theorem run_gateway (es : List Event) (s : ClientState) :
    (run s es).gateway = s.gateway := by
  induction es generalizing s with
  | nil => rfl
  | cons e es ih => rw [run_cons, ih]; exact step_gateway s e

theorem step_sock_mono (s : ClientState) (e : Event) (o : SocketObj) (h : s.sock = some o) :
    ∃ o2, (step s e).sock = some o2 ∧ o2.creationId = o.creationId := by
  cases e <;> simp_all [step, initSocketOp, onConnect, onConnectError]

theorem run_sock_mono (es : List Event) (s : ClientState) (o : SocketObj)
    (h : s.sock = some o) :
    ∃ o2, (run s es).sock = some o2 ∧ o2.creationId = o.creationId := by
  induction es generalizing s o with
  | nil => exact ⟨o, h, rfl⟩
  | cons e es ih =>
    obtain ⟨o1, h1, hid⟩ := step_sock_mono s e o h
    obtain ⟨o2, h2, hid2⟩ := ih (step s e) o1 h1
    exact ⟨o2, h2, hid2.trans hid⟩

/-- The io call count always matches whether the socket field is set. -/
def ConnInv (s : ClientState) : Prop :=
  s.connectionsCreated = (if s.sock.isSome then 1 else 0)

theorem step_conn_inv (s : ClientState) (e : Event) (h : ConnInv s) : ConnInv (step s e) := by
  cases e <;> cases hs : s.sock <;>
    simp_all [ConnInv, step, initSocketOp, onConnect, onConnectError]

theorem run_conn_inv (es : List Event) (s : ClientState) (h : ConnInv s) :
    ConnInv (run s es) := by
  induction es generalizing s with
  | nil => exact h
  | cons e es ih => exact ih _ (step_conn_inv s e h)

theorem step_sock_isSome_of_ne (s : ClientState) (e : Event) (he : e ≠ Event.initCall) :
    (step s e).sock.isSome = s.sock.isSome := by
  cases e <;> cases hs : s.sock <;>
    simp_all [step, onConnect, onConnectError]

theorem step_init_sock_isSome (s : ClientState) :
    (step s Event.initCall).sock.isSome = true := by
  cases hs : s.sock <;> simp [step, initSocketOp, hs]

theorem run_sock_isSome_iff (es : List Event) (s : ClientState) :
    (run s es).sock.isSome = true ↔ (s.sock.isSome = true ∨ Event.initCall ∈ es) := by
  induction es generalizing s with
  | nil => simp [run_nil]
  | cons e es ih =>
    rw [run_cons, ih]
    by_cases he : e = Event.initCall
    · subst he
      simp [step_init_sock_isSome]
    · rw [step_sock_isSome_of_ne s e he]
      have hmem : (Event.initCall ∈ e :: es) ↔ Event.initCall ∈ es := by
        constructor
        · intro hm
          rcases List.mem_cons.mp hm with h1 | h2
          · exact absurd h1.symm he
          · exact h2
        · exact fun hm => List.mem_cons_of_mem e hm
      rw [hmem]

theorem step_settled_frozen (s : ClientState) (e : Event)
    (hp : s.promPending = false) (hs : s.sock.isSome = true) :
    (step s e).promPending = false ∧ (step s e).sock.isSome = true ∧
    (step s e).okSettled = s.okSettled ∧ (step s e).errSettled = s.errSettled := by
  obtain ⟨o, ho⟩ := Option.isSome_iff_exists.mp hs
  cases e <;> simp_all [step, initSocketOp, onConnect, onConnectError]

theorem run_settled_frozen (es : List Event) (s : ClientState)
    (hp : s.promPending = false) (hs : s.sock.isSome = true) :
    (run s es).promPending = false ∧ (run s es).sock.isSome = true ∧
    (run s es).okSettled = s.okSettled ∧ (run s es).errSettled = s.errSettled := by
  induction es generalizing s with
  | nil => exact ⟨hp, hs, rfl, rfl⟩
  | cons e es ih =>
    obtain ⟨h1, h2, h3, h4⟩ := step_settled_frozen s e hp hs
    obtain ⟨g1, g2, g3, g4⟩ := ih (step s e) h1 h2
    exact ⟨g1, g2, g3.trans h3, g4.trans h4⟩

theorem step_id_of_none (s : ClientState) (e : Event) (hs : s.sock = none)
    (he : e ≠ Event.initCall) : step s e = s := by
  cases e <;> simp_all [step, onConnect, onConnectError]

theorem run_id_of_no_init (es : List Event) (s : ClientState) (hs : s.sock = none)
    (h : Event.initCall ∉ es) : run s es = s := by
  induction es generalizing s with
  | nil => rfl
  | cons e es ih =>
    have he : e ≠ Event.initCall := by
      intro hh
      subst hh
      exact h (List.mem_cons_self _ _)
    rw [run_cons, step_id_of_none s e hs he]
    exact ih s hs (fun hm => h (List.mem_cons_of_mem e hm))

theorem initSocketOp_of_some (s : ClientState) (o : SocketObj) (h : s.sock = some o) :
    initSocketOp s = ({ s with initInvoked := true }, InitResult.alreadyInitialized) := by
  simp [initSocketOp, h]

theorem getSocket_of_isSome (s : ClientState) (h : s.sock.isSome = true) :
    ∃ o, getSocket s = Except.ok o := by
  obtain ⟨o, ho⟩ := Option.isSome_iff_exists.mp h
  exact ⟨o, by simp [getSocket, ho]⟩

/-! Claim theorems. -/

/-- C1: over every sequence of events on a client, at most one io connection
is ever created, and whenever the socket field is already assigned a further
initSocket call returns immediately without creating another connection. -/
theorem initSocket_at_most_one_connection (clientId clientSecret : Option String)
    (es : List Event) :
    (run (mkClient clientId clientSecret) es).connectionsCreated ≤ 1 ∧
    ((run (mkClient clientId clientSecret) es).sock.isSome = true →
      (initSocketOp (run (mkClient clientId clientSecret) es)).snd =
        InitResult.alreadyInitialized ∧
      (initSocketOp (run (mkClient clientId clientSecret) es)).fst.connectionsCreated =
        (run (mkClient clientId clientSecret) es).connectionsCreated) := by
  have hinv : ConnInv (run (mkClient clientId clientSecret) es) :=
    run_conn_inv es _ (by simp [ConnInv, mkClient])
  constructor
  · rw [ConnInv] at hinv
    rw [hinv]
    split <;> omega
  · intro hs
    obtain ⟨o, ho⟩ := Option.isSome_iff_exists.mp hs
    rw [initSocketOp_of_some _ o ho]
    exact ⟨rfl, rfl⟩

/-- Witness for C1 at a concrete one-call run. -/
theorem initSocket_at_most_one_connection_witness :
    (run (mkClient none none) [Event.initCall]).connectionsCreated ≤ 1 ∧
    (initSocketOp (run (mkClient none none) [Event.initCall])).snd =
      InitResult.alreadyInitialized := by
  refine ⟨(initSocket_at_most_one_connection none none [Event.initCall]).1, ?_⟩
  exact ((initSocket_at_most_one_connection none none [Event.initCall]).2 (by decide)).1

/-- C2: one initSocket call from the uninitialized state followed by the
connect signal creates the socket object, the returned promise is the pending
one and it settles successfully exactly once, and from then on, whatever
events follow, the success count stays one, no failure settlement occurs, and
the guarded getter returns the socket object. -/
theorem initSocket_success_resolves_once (clientId clientSecret : Option String)
    (rest : List Event) :
    (initSocketOp (mkClient clientId clientSecret)).snd = InitResult.pendingConnection ∧
    (run (mkClient clientId clientSecret) [Event.initCall, Event.connectSignal]).sock =
      some { creationId := 0, phase := Phase.connected } ∧
    (run (mkClient clientId clientSecret)
        (Event.initCall :: Event.connectSignal :: rest)).okSettled = 1 ∧
    (run (mkClient clientId clientSecret)
        (Event.initCall :: Event.connectSignal :: rest)).errSettled = 0 ∧
    ∃ o, getSocket (run (mkClient clientId clientSecret)
        (Event.initCall :: Event.connectSignal :: rest)) = Except.ok o := by
  have h2 : run (mkClient clientId clientSecret) [Event.initCall, Event.connectSignal] =
      { gateway := mkGateway clientId clientSecret,
        sock := some { creationId := 0, phase := Phase.connected },
        promPending := false, okSettled := 1, errSettled := 0,
        connectionsCreated := 1, initInvoked := true } := rfl
  have hrun : run (mkClient clientId clientSecret)
      (Event.initCall :: Event.connectSignal :: rest) =
      run (run (mkClient clientId clientSecret) [Event.initCall, Event.connectSignal])
        rest := rfl
  have hfrozen := run_settled_frozen rest
      (run (mkClient clientId clientSecret) [Event.initCall, Event.connectSignal])
      (by rw [h2]) (by rw [h2]; rfl)
  refine ⟨rfl, by rw [h2], ?_, ?_, ?_⟩
  · rw [hrun, hfrozen.2.2.1, h2]
  · rw [hrun, hfrozen.2.2.2, h2]
  · rw [hrun]
    exact getSocket_of_isSome _ hfrozen.2.1

/-- C3: one initSocket call from the uninitialized state followed by the
connect_error signal settles the promise with failure exactly once, the socket
field keeps the object in the failed phase, the failure count stays one over
any further events, and a subsequent initSocket call returns immediately:
same state, same connection count, no new handshake. -/
theorem initSocket_failure_persists_socket (clientId clientSecret : Option String)
    (rest : List Event) :
    (run (mkClient clientId clientSecret)
        [Event.initCall, Event.connectErrorSignal]).errSettled = 1 ∧
    (run (mkClient clientId clientSecret)
        [Event.initCall, Event.connectErrorSignal]).sock =
      some { creationId := 0, phase := Phase.failed } ∧
    (run (mkClient clientId clientSecret)
        (Event.initCall :: Event.connectErrorSignal :: rest)).errSettled = 1 ∧
    (run (mkClient clientId clientSecret)
        (Event.initCall :: Event.connectErrorSignal :: rest)).okSettled = 0 ∧
    (initSocketOp (run (mkClient clientId clientSecret)
        (Event.initCall :: Event.connectErrorSignal :: rest))).snd =
      InitResult.alreadyInitialized ∧
    (initSocketOp (run (mkClient clientId clientSecret)
        (Event.initCall :: Event.connectErrorSignal :: rest))).fst.connectionsCreated =
      (run (mkClient clientId clientSecret)
        (Event.initCall :: Event.connectErrorSignal :: rest)).connectionsCreated ∧
    (initSocketOp (run (mkClient clientId clientSecret)
        (Event.initCall :: Event.connectErrorSignal :: rest))).fst.sock =
      (run (mkClient clientId clientSecret)
        (Event.initCall :: Event.connectErrorSignal :: rest)).sock := by
  have h2 : run (mkClient clientId clientSecret)
      [Event.initCall, Event.connectErrorSignal] =
      { gateway := mkGateway clientId clientSecret,
        sock := some { creationId := 0, phase := Phase.failed },
        promPending := false, okSettled := 0, errSettled := 1,
        connectionsCreated := 1, initInvoked := true } := rfl
  have hrun : run (mkClient clientId clientSecret)
      (Event.initCall :: Event.connectErrorSignal :: rest) =
      run (run (mkClient clientId clientSecret)
        [Event.initCall, Event.connectErrorSignal]) rest := rfl
  have hfrozen := run_settled_frozen rest
      (run (mkClient clientId clientSecret) [Event.initCall, Event.connectErrorSignal])
      (by rw [h2]) (by rw [h2]; rfl)
  obtain ⟨o, ho⟩ := Option.isSome_iff_exists.mp hfrozen.2.1
  refine ⟨by rw [h2], by rw [h2], ?_, ?_, ?_, ?_, ?_⟩
  · rw [hrun, hfrozen.2.2.2, h2]
  · rw [hrun, hfrozen.2.2.1, h2]
  · rw [hrun, initSocketOp_of_some _ o (hrun ▸ ho)]
  · rw [hrun, initSocketOp_of_some _ o (hrun ▸ ho)]
  · rw [hrun, initSocketOp_of_some _ o (hrun ▸ ho)]

/-- C4: before any initSocket call the guarded getter fails deterministically
with the configuration error message, and on any state whose socket field is
assigned it returns that object synchronously, with no condition on the
connection phase. -/
theorem socket_accessor_guard (clientId clientSecret : Option String) (es : List Event) :
    (Event.initCall ∉ es →
      getSocket (run (mkClient clientId clientSecret) es) =
        Except.error "Socket not initialized. Call `initSocket()` first.") ∧
    (∀ o, (run (mkClient clientId clientSecret) es).sock = some o →
      getSocket (run (mkClient clientId clientSecret) es) = Except.ok o) := by
  constructor
  · intro h
    rw [run_id_of_no_init es _ rfl h]
    rfl
  · intro o ho
    simp [getSocket, ho]

/-- Witness for C4: the empty run throws, a run with one initSocket call
returns the created object. -/
theorem socket_accessor_guard_witness :
    getSocket (run (mkClient none none) []) =
      Except.error "Socket not initialized. Call `initSocket()` first." ∧
    getSocket (run (mkClient none none) [Event.initCall]) =
      Except.ok { creationId := 0, phase := Phase.connecting } := by
  constructor
  · exact (socket_accessor_guard none none []).1 (by decide)
  · exact (socket_accessor_guard none none [Event.initCall]).2
      { creationId := 0, phase := Phase.connecting } rfl

/-- C5 counterexample: with both credentials present but the client id equal
to the empty string, the constructor produces the empty header value instead
of the Basic credential the claim demands, because the source guards with
JavaScript truthiness rather than presence. -/
theorem auth_header_empty_credential_counterexample :
    buildAuthHeader (some "") (some "s") = "" ∧
    buildAuthHeader (some "") (some "s") ≠
      "Basic " ++ base64Encode (strBytes ("" ++ ":" ++ "s")) := by
  exact ⟨rfl, by decide⟩

/-- C5 amended: for every pair of present and non-empty credentials, the
authorization header value of the constructed client equals the basic-auth
scheme label followed by the Base64 encoding of the id, a colon and the
secret; it is computed at construction and no later event changes the
gateway. -/
theorem auth_header_basic_scheme (cid cs : String) (es : List Event)
    (hcid : cid ≠ "") (hcs : cs ≠ "") :
    headerValue "Authorization" (mkClient (some cid) (some cs)).gateway.headers =
      some ("Basic " ++ base64Encode (strBytes (cid ++ ":" ++ cs))) ∧
    (run (mkClient (some cid) (some cs)) es).gateway =
      (mkClient (some cid) (some cs)).gateway := by
  constructor
  · have h1 : headerValue "Authorization" (mkClient (some cid) (some cs)).gateway.headers =
        some (buildAuthHeader (some cid) (some cs)) := rfl
    rw [h1]
    have h2 : buildAuthHeader (some cid) (some cs) =
        "Basic " ++ base64Encode (strBytes (cid ++ ":" ++ cs)) := by
      simp only [buildAuthHeader]
      rw [if_neg (not_or.mpr ⟨hcid, hcs⟩)]
    rw [h2]
  · exact run_gateway es _

/-- Witness for C5 at concrete non-empty credentials. -/
theorem auth_header_basic_scheme_witness :
    headerValue "Authorization" (mkClient (some "abc") (some "xyz")).gateway.headers =
      some ("Basic " ++ base64Encode (strBytes ("abc" ++ ":" ++ "xyz"))) ∧
    headerValue "Authorization" (mkClient (some "abc") (some "xyz")).gateway.headers =
      some "Basic YWJjOnh5eg==" := by
  refine ⟨(auth_header_basic_scheme "abc" "xyz" [] (by decide) (by decide)).1, ?_⟩
  rw [(auth_header_basic_scheme "abc" "xyz" [] (by decide) (by decide)).1]
  decide

/-- C6 counterexample: constructed without credentials, the gateway header
object still contains the Authorization key, mapped to the empty string; the
header is not absent as the claim states, and the request built by
getTransactions for such a client carries that empty header value. -/
theorem auth_header_present_without_credentials :
    headerValue "Authorization" (mkGateway none none).headers = some "" ∧
    headerValue "Authorization" (mkGateway none none).headers ≠ none ∧
    headerValue "Authorization"
      ((getTransactionsRun (mkGateway none none)
          { page := 1, limit := 100, order := "desc" }
          { status := 200, data := (0 : Nat) }).fst.headD
        { method := "", url := "", params := [], headers := [] }).headers = some "" := by
  exact ⟨rfl, by decide, rfl⟩

/-- C6 amended: when either credential is absent, the Authorization header of
the gateway is still present, with the empty string as its value; requests go
out with that empty header value rather than without the header. -/
theorem auth_header_empty_when_credentials_absent (cid cs : Option String)
    (h : cid = none ∨ cs = none) :
    headerValue "Authorization" (mkGateway cid cs).headers = some "" := by
  rcases h with h | h
  · subst h
    cases cs <;> rfl
  · subst h
    cases cid <;> rfl

/-- Witness for C6 with the client id absent. -/
theorem auth_header_empty_when_credentials_absent_witness :
    ((none : Option String) = none ∨ (some "x" : Option String) = none) ∧
    headerValue "Authorization" (mkGateway none (some "x")).headers = some "" :=
  ⟨Or.inl rfl, auth_header_empty_when_credentials_absent none (some "x") (Or.inl rfl)⟩

/-- C7 counterexample: for a client constructed without credentials, the one
GET issued by getTransactions still carries the Authorization header, with the
empty string value, so the header is not present exactly when credentials were
supplied. -/
theorem transactions_auth_header_without_credentials :
    headerValue "Authorization"
      ((getTransactionsRun (mkGateway none none)
          { page := 1, limit := 100, order := "desc" }
          { status := 200, data := (0 : Nat) }).fst.headD
        { method := "", url := "", params := [], headers := [] }).headers ≠ none := by
  decide

/-- C7 amended: getItems with the empty options record issues exactly one GET
to the items path with no query parameters and returns the decoded body
unchanged; getTransactions with page 1, limit 100 and order desc issues
exactly one GET to the account transactions path with exactly those three
query parameters and returns the decoded body unchanged; each request carries
the headers frozen at construction, whose Authorization value is the
credential computed there: the Basic credential when both credentials were
supplied non-empty, the empty string otherwise, the header field itself being
always present. -/
theorem marketplace_requests_shape (cid cs : Option String) (T U : Type)
    (respItems : HttpResponse T) (respTx : HttpResponse U) :
    getItemsRun (mkGateway cid cs)
        { app_id := none, currency := none, tradable := none } respItems =
      ([{ method := "GET", url := "https://api.skinport.com/v1/items", params := [],
          headers := (mkGateway cid cs).headers }], respItems.data) ∧
    getTransactionsRun (mkGateway cid cs)
        { page := 1, limit := 100, order := "desc" } respTx =
      ([{ method := "GET", url := "https://api.skinport.com/v1/account/transactions",
          params := [("page", ParamValue.nat 1), ("limit", ParamValue.nat 100),
                     ("order", ParamValue.str "desc")],
          headers := (mkGateway cid cs).headers }], respTx.data) ∧
    headerValue "Authorization" (mkGateway cid cs).headers =
      some (buildAuthHeader cid cs) := by
  exact ⟨rfl, rfl, rfl⟩

/-- C8 counterexample: with app_id and currency omitted, getItems hands the
gateway a request with an empty parameter list, and the getSalesHistory
request likewise: the operation inserts neither app_id 730 nor currency
EUR. -/
theorem getItems_applies_no_default_counterexample :
    ((getItemsRun (mkGateway none none)
        { app_id := none, currency := none, tradable := none }
        { status := 200, data := (0 : Nat) }).fst.headD
      { method := "", url := "", params := [], headers := [] }).params = [] ∧
    ("app_id", ParamValue.nat 730) ∉
      ((getItemsRun (mkGateway none none)
          { app_id := none, currency := none, tradable := none }
          { status := 200, data := (0 : Nat) }).fst.headD
        { method := "", url := "", params := [], headers := [] }).params ∧
    ("currency", ParamValue.str "EUR") ∉
      ((getSalesHistoryRun (mkGateway none none)
          { market_hash_name := none, app_id := none, currency := none }
          { status := 200, data := (0 : Nat) }).fst.headD
        { method := "", url := "", params := [], headers := [] }).params := by
  exact ⟨rfl, by decide, by decide⟩

/-- The key of any parameter produced by queryEntry is the declared name. -/
theorem queryEntry_key (k name : String) {α : Type} (f : α → ParamValue)
    (x : Option α) (v : ParamValue) (h : (k, v) ∈ queryEntry name f x) :
    k = name := by
  cases x with
  | none => cases h
  | some a => exact congrArg Prod.fst (List.mem_singleton.mp h)

/-- C8 amended: no default value is applied by the operation or by the
gateway: an omitted option contributes no query parameter at all, so a
getItems or getSalesHistory call with absent app_id and currency issues its
GET with no app_id parameter and no currency parameter of any value; the
documented defaults are applied by the remote service, not by this code. -/
theorem operations_apply_no_defaults (o : ItemsOptions) (o2 : SalesHistoryOptions)
    (ha : o.app_id = none) (hc : o.currency = none) (ha2 : o2.app_id = none)
    (hc2 : o2.currency = none) :
    (∀ v, ("app_id", v) ∉ itemsParams o) ∧
    (∀ v, ("currency", v) ∉ itemsParams o) ∧
    (∀ v, ("app_id", v) ∉ salesHistoryParams o2) ∧
    (∀ v, ("currency", v) ∉ salesHistoryParams o2) := by
  refine ⟨?_, ?_, ?_, ?_⟩ <;> intro v hv
  · simp only [itemsParams, ha, hc] at hv
    rcases List.mem_append.mp hv with h | h
    · rcases List.mem_append.mp h with h | h
      · cases h
      · cases h
    · exact absurd (queryEntry_key _ _ _ _ _ h) (by decide)
  · simp only [itemsParams, ha, hc] at hv
    rcases List.mem_append.mp hv with h | h
    · rcases List.mem_append.mp h with h | h
      · cases h
      · cases h
    · exact absurd (queryEntry_key _ _ _ _ _ h) (by decide)
  · simp only [salesHistoryParams, ha2, hc2] at hv
    rcases List.mem_append.mp hv with h | h
    · rcases List.mem_append.mp h with h | h
      · exact absurd (queryEntry_key _ _ _ _ _ h) (by decide)
      · cases h
    · cases h
  · simp only [salesHistoryParams, ha2, hc2] at hv
    rcases List.mem_append.mp hv with h | h
    · rcases List.mem_append.mp h with h | h
      · exact absurd (queryEntry_key _ _ _ _ _ h) (by decide)
      · cases h
    · cases h

/-- Witness for C8 at options records with only the non-defaulted fields
set. -/
theorem operations_apply_no_defaults_witness :
    ("app_id", ParamValue.nat 730) ∉
      itemsParams { app_id := none, currency := none, tradable := some true } ∧
    ("currency", ParamValue.str "EUR") ∉
      salesHistoryParams { market_hash_name := some "x", app_id := none, currency := none } := by
  constructor
  · exact (operations_apply_no_defaults
      { app_id := none, currency := none, tradable := some true }
      { market_hash_name := some "x", app_id := none, currency := none }
      rfl rfl rfl rfl).1 (ParamValue.nat 730)
  · exact (operations_apply_no_defaults
      { app_id := none, currency := none, tradable := some true }
      { market_hash_name := some "x", app_id := none, currency := none }
      rfl rfl rfl rfl).2.2.2 (ParamValue.str "EUR")

/-- C9: in every reachable state the request gateway is the one built at
construction, always present and never changed, and the event channel object
is present exactly when an initSocket call has occurred in the run; a
handshake failure never removes it, so no terminal unretried failure state
without the object exists. -/
theorem gateway_present_channel_iff_invoked (cid cs : Option String) (es : List Event) :
    (run (mkClient cid cs) es).gateway = mkGateway cid cs ∧
    ((run (mkClient cid cs) es).sock.isSome = true ↔ Event.initCall ∈ es) := by
  constructor
  · exact run_gateway es _
  · rw [run_sock_isSome_iff]
    simp [mkClient]

/-- C10: once a run has assigned the socket object, whatever events follow,
an object with the same identity stays in place, never cleared or replaced,
and the guarded getter succeeds from then on. -/
theorem socket_assignment_monotone (cid cs : Option String) (es more : List Event)
    (o : SocketObj) (h : (run (mkClient cid cs) es).sock = some o) :
    ∃ o2, (run (mkClient cid cs) (es ++ more)).sock = some o2 ∧
      o2.creationId = o.creationId ∧
      getSocket (run (mkClient cid cs) (es ++ more)) = Except.ok o2 := by
  rw [run_append]
  obtain ⟨o2, h2, hid⟩ := run_sock_mono more _ o h
  exact ⟨o2, h2, hid, by simp [getSocket, h2]⟩

/-- Witness for C10: a run that assigned the socket, followed by a failing
handshake, still holds the same object and the getter succeeds. -/
theorem socket_assignment_monotone_witness :
    ∃ o2, (run (mkClient none none)
        ([Event.initCall] ++ [Event.connectErrorSignal])).sock = some o2 ∧
      o2.creationId =
        ({ creationId := 0, phase := Phase.connecting } : SocketObj).creationId ∧
      getSocket (run (mkClient none none)
        ([Event.initCall] ++ [Event.connectErrorSignal])) = Except.ok o2 :=
  socket_assignment_monotone none none [Event.initCall] [Event.connectErrorSignal]
    { creationId := 0, phase := Phase.connecting } rfl
